import Mathlib

/-!
# Verification of the ALwrity background-task / caching backend

Shallow embedding of the task-lifecycle and caching logic of the ALwrity
backend, together with proofs about its specified behaviour.

Embedded source files:
* `backend/api/subscription/cache.py` — the dashboard TTL cache.
* `backend/api/blog_writer/router.py` — the research / content-generation
  status endpoints (subscription-error translation, 404 handling).
* `backend/api/story_writer/routes/video_generation.py` — the asynchronous
  video-generation background tasks and their progress rescaling.
* `backend/api/story_writer/utils/auth.py` — `require_authenticated_user`.
* `backend/api/images.py` — the image `generate` endpoint and
  `serve_image_studio_image`.

Numbers that are Python floats (timestamps, progress percentages) are
modelled as rationals; per-process dictionaries are modelled as association
lists keyed by strings.
-/

namespace ALwrity

/-! ## String helpers

Kernel-evaluable models of the Python string operations used by the embedded
code (`str.lower`, `str.strip`, `str.split`, `str.startswith`).  They operate
on the underlying character list so that concrete witnesses can be checked by
`decide` / `rfl`. -/

/-- Python `str.lower()` (per-code-point lowercasing; agrees with CPython on
the ASCII configuration values the code compares against). -/
def pyLower (s : String) : String := String.mk (s.data.map Char.toLower)

/-- Python `str.strip()`: removes leading and trailing whitespace. -/
def pyStrip (s : String) : String :=
  String.mk (((s.data.dropWhile Char.isWhitespace).reverse.dropWhile
    Char.isWhitespace).reverse)

/-- Python `str.split(sep)` for a one-character separator: keeps empty
fields, and `"".split(sep) == [""]`. -/
def pySplitChar (c : Char) (s : String) : List String :=
  (s.data.foldr
    (fun ch acc =>
      match acc with
      | [] => [[ch]]
      | cur :: rest => if ch = c then [] :: cur :: rest else (ch :: cur) :: rest)
    [[]]).map String.mk

/-- Python `str.startswith(prefix)`. -/
def pyStartsWith (pre s : String) : Bool := pre.data.isPrefixOf s.data

/-- Python `s[n:]` on strings (drop the first `n` characters). -/
def pyDrop (n : Nat) (s : String) : String := String.mk (s.data.drop n)

/-! ## Dashboard cache (`backend/api/subscription/cache.py`) -/

/-- Association-list update: replaces the value at `k` if present,
otherwise appends.  Models Python `d[k] = v` on a `dict`. -/
def listInsert {α : Type} (k : String) (v : α) : List (String × α) → List (String × α)
  | [] => [(k, v)]
  | (k', v') :: rest =>
    if k' = k then (k, v) :: rest else (k', v') :: listInsert k v rest

/-- The module-level state of `cache.py`: `_dashboard_cache` and
`_dashboard_cache_ts`. -/
structure DashboardCacheState (α : Type) where
  dashboardCache : List (String × α)
  dashboardCacheTs : List (String × ℚ)
deriving Repr

/-- `_DASHBOARD_CACHE_TTL_SEC = 600.0`. -/
def DASHBOARD_CACHE_TTL_SEC : ℚ := 600

/-- The no-cache test in `get_cached_dashboard`:
`os.getenv('SUBSCRIPTION_DASHBOARD_NOCACHE', 'false').lower() in {'1', 'true', 'yes', 'on'}`.
`env` is the value of the environment variable, `none` when unset. -/
def dashboardNocache (env : Option String) : Bool :=
  pyLower (env.getD "false") ∈ ["1", "true", "yes", "on"]

/-- `get_cached_dashboard(user_id)`.  Returns the cached value together with
the (unchanged) module state after the call; the Python function never
mutates `_dashboard_cache` or `_dashboard_cache_ts`. -/
def get_cached_dashboard {α : Type} (env : Option String) (now : ℚ)
    (st : DashboardCacheState α) (user_id : String) :
    Option α × DashboardCacheState α :=
  if dashboardNocache env then (none, st)
  else if (st.dashboardCache.lookup user_id).isSome ∧
      now - ((st.dashboardCacheTs.lookup user_id).getD 0) < DASHBOARD_CACHE_TTL_SEC then
    (st.dashboardCache.lookup user_id, st)
  else (none, st)

/-- `set_cached_dashboard(user_id, data)`: stores the value and stamps the
current time. -/
def set_cached_dashboard {α : Type} (now : ℚ) (st : DashboardCacheState α)
    (user_id : String) (data : α) : DashboardCacheState α :=
  { dashboardCache := listInsert user_id data st.dashboardCache,
    dashboardCacheTs := listInsert user_id now st.dashboardCacheTs }

/-- `clear_dashboard_cache(user_id)`: removes one user's entry
(`user_id = some u`) or all entries (`user_id = none`). -/
def clear_dashboard_cache {α : Type} (st : DashboardCacheState α)
    (user_id : Option String) : DashboardCacheState α :=
  match user_id with
  | some u =>
    { dashboardCache := st.dashboardCache.filter (fun p => p.1 ≠ u),
      dashboardCacheTs := st.dashboardCacheTs.filter (fun p => p.1 ≠ u) }
  | none => { dashboardCache := [], dashboardCacheTs := [] }

theorem listInsert_lookup_self {α : Type} (k : String) (v : α) :
    ∀ l : List (String × α), (listInsert k v l).lookup k = some v := by
  intro l
  induction l with
  | nil => simp [listInsert, List.lookup]
  | cons hd tl ih =>
    by_cases h : hd.1 = k
    · simp [listInsert, h, List.lookup]
    · simp only [listInsert]
      rw [if_neg h]
      have h' : (k == hd.1) = false := by
        simp only [beq_eq_false_iff_ne, ne_eq]
        exact fun e => h e.symm
      simpa [List.lookup, h'] using ih

/-- Claim C2: for every `user_id` `u` and value `v`, if
`set_cached_dashboard(u, v)` is called at time `t` (with the bypass flag
unset and no intervening set or clear for `u`), then `get_cached_dashboard(u)`
at time `t'` with `t' - t < 600` returns `v`, and at time `t'` with
`t' - t ≥ 600` returns `None` even though no explicit eviction call was
made. -/
theorem C2_set_then_get_respects_ttl {α : Type} (env : Option String)
    (u : String) (v : α) (t t' : ℚ) (st : DashboardCacheState α)
    (hnc : dashboardNocache env = false) :
    (t' - t < DASHBOARD_CACHE_TTL_SEC →
      (get_cached_dashboard env t' (set_cached_dashboard t st u v) u).1 = some v) ∧
    (DASHBOARD_CACHE_TTL_SEC ≤ t' - t →
      (get_cached_dashboard env t' (set_cached_dashboard t st u v) u).1 = none) := by
  have h1 : ((set_cached_dashboard t st u v).dashboardCache.lookup u) = some v :=
    listInsert_lookup_self u v _
  have h2 : ((set_cached_dashboard t st u v).dashboardCacheTs.lookup u) = some t :=
    listInsert_lookup_self u t _
  constructor
  · intro h
    simp [get_cached_dashboard, hnc, h1, h2, h]
  · intro h
    simp [get_cached_dashboard, hnc, h1, h2, not_lt.mpr h]

/-- Witness for C2 at `u = "u"`, `v = 7`, `t = 0`, hit at `t' = 100` and
miss at `t' = 600`. -/
theorem C2_set_then_get_respects_ttl_witness :
    dashboardNocache none = false ∧
    (get_cached_dashboard none 100
      (set_cached_dashboard 0 (⟨[], []⟩ : DashboardCacheState ℕ) "u" 7) "u").1 = some 7 ∧
    (get_cached_dashboard none 600
      (set_cached_dashboard 0 (⟨[], []⟩ : DashboardCacheState ℕ) "u" 7) "u").1 = none :=
  ⟨by decide,
   (C2_set_then_get_respects_ttl none "u" 7 0 100 ⟨[], []⟩ (by decide)).1
     (by norm_num [DASHBOARD_CACHE_TTL_SEC]),
   (C2_set_then_get_respects_ttl none "u" 7 0 600 ⟨[], []⟩ (by decide)).2
     (by norm_num [DASHBOARD_CACHE_TTL_SEC])⟩

/-- Claim C3 as stated is false: a read of an expired entry does NOT evict
it.  Concrete input: user `"u"` cached at time `0` with value `42`, read at
time `600` (so `now - created_at ≥ TTL`); the read reports a miss but the
entry is still in the store afterwards. -/
theorem C3_expired_read_does_not_evict_counterexample :
    (600 : ℚ) - 0 ≥ DASHBOARD_CACHE_TTL_SEC ∧
    (get_cached_dashboard none 600
      (⟨[("u", 42)], [("u", 0)]⟩ : DashboardCacheState ℕ) "u").1 = none ∧
    ((get_cached_dashboard none 600
      (⟨[("u", 42)], [("u", 0)]⟩ : DashboardCacheState ℕ) "u").2.dashboardCache.lookup "u"
        = some 42) := by
  have hb : dashboardNocache none = false := by decide
  refine ⟨by norm_num [DASHBOARD_CACHE_TTL_SEC], ?_, ?_⟩ <;>
    simp [get_cached_dashboard, hb, List.lookup, DASHBOARD_CACHE_TTL_SEC]

/-- Claim C3 (amended): a read of an expired entry (`now - created_at ≥ TTL`)
behaves as a miss (returns `None`) but does not evict it — the whole cache
state, the entry for `u` included, is left unchanged by the read. -/
theorem C3_expired_read_is_miss_without_eviction {α : Type} (env : Option String)
    (u : String) (st : DashboardCacheState α) (now ts : ℚ)
    (hts : st.dashboardCacheTs.lookup u = some ts)
    (hexp : DASHBOARD_CACHE_TTL_SEC ≤ now - ts) :
    (get_cached_dashboard env now st u).1 = none ∧
    (get_cached_dashboard env now st u).2 = st := by
  unfold get_cached_dashboard
  by_cases hb : dashboardNocache env
  · simp [hb]
  · simp [hb, hts, not_lt.mpr hexp]

/-- Witness for amended C3 at the concrete expired entry. -/
theorem C3_expired_read_is_miss_without_eviction_witness :
    ((⟨[("u", 42)], [("u", 0)]⟩ : DashboardCacheState ℕ).dashboardCacheTs.lookup "u"
        = some 0) ∧
    (get_cached_dashboard none 600
      (⟨[("u", 42)], [("u", 0)]⟩ : DashboardCacheState ℕ) "u").1 = none ∧
    (get_cached_dashboard none 600
      (⟨[("u", 42)], [("u", 0)]⟩ : DashboardCacheState ℕ) "u").2 =
      (⟨[("u", 42)], [("u", 0)]⟩ : DashboardCacheState ℕ) :=
  ⟨by simp [List.lookup],
   (C3_expired_read_is_miss_without_eviction none "u" ⟨[("u", 42)], [("u", 0)]⟩
      600 0 (by simp [List.lookup]) (by norm_num [DASHBOARD_CACHE_TTL_SEC])).1,
   (C3_expired_read_is_miss_without_eviction none "u" ⟨[("u", 42)], [("u", 0)]⟩
      600 0 (by simp [List.lookup]) (by norm_num [DASHBOARD_CACHE_TTL_SEC])).2⟩

/-- Claim C7: when `SUBSCRIPTION_DASHBOARD_NOCACHE` is set to `'1'`,
`'true'`, `'yes'` or `'on'` (case-insensitively), `get_cached_dashboard`
returns `None` for every user — including users with fresh cached entries —
while `set_cached_dashboard` is unaffected and still stores the entry and
its timestamp. -/
theorem C7_nocache_env_bypasses_get_not_set {α : Type} (env : String)
    (u : String) (st : DashboardCacheState α) (now t : ℚ) (v : α)
    (h : pyLower env ∈ ["1", "true", "yes", "on"]) :
    (get_cached_dashboard (some env) now st u).1 = none ∧
    (set_cached_dashboard t st u v).dashboardCache.lookup u = some v ∧
    (set_cached_dashboard t st u v).dashboardCacheTs.lookup u = some t := by
  have hb : dashboardNocache (some env) = true := by
    simp [dashboardNocache, h]
  exact ⟨by simp [get_cached_dashboard, hb],
    listInsert_lookup_self u v _, listInsert_lookup_self u t _⟩

/-- Witness for C7: `SUBSCRIPTION_DASHBOARD_NOCACHE = "TRUE"` forces a miss
even for a user with a fresh entry, and a set still lands in the store. -/
theorem C7_nocache_env_bypasses_get_not_set_witness :
    (pyLower "TRUE" ∈ ["1", "true", "yes", "on"]) ∧
    (get_cached_dashboard (some "TRUE") 1
      (⟨[("u", 7)], [("u", 0)]⟩ : DashboardCacheState ℕ) "u").1 = none ∧
    (set_cached_dashboard 5 (⟨[("u", 7)], [("u", 0)]⟩ : DashboardCacheState ℕ)
      "u" 9).dashboardCache.lookup "u" = some 9 ∧
    (set_cached_dashboard 5 (⟨[("u", 7)], [("u", 0)]⟩ : DashboardCacheState ℕ)
      "u" 9).dashboardCacheTs.lookup "u" = some 5 :=
  ⟨by decide,
   (C7_nocache_env_bypasses_get_not_set "TRUE" "u" ⟨[("u", 7)], [("u", 0)]⟩
      1 5 9 (by decide)).1,
   (C7_nocache_env_bypasses_get_not_set "TRUE" "u" ⟨[("u", 7)], [("u", 0)]⟩
      1 5 9 (by decide)).2.1,
   (C7_nocache_env_bypasses_get_not_set "TRUE" "u" ⟨[("u", 7)], [("u", 0)]⟩
      1 5 9 (by decide)).2.2⟩

/-! ## Status endpoints (`backend/api/blog_writer/router.py`)

The task snapshots returned by `task_manager.get_task_status` are dicts; we
model the dynamic JSON-ish values flowing through `error_data` with a small
inductive type. -/

/-- Dynamic JSON-like value (the shapes the router manipulates). -/
inductive JVal where
  | jnull
  | jstr (s : String)
  | jint (n : Int)
  | jbool (b : Bool)
  | jarr (xs : List JVal)
  | jobj (fields : List (String × JVal))

mutual

/-- Python `==` on the embedded JSON values (structural value equality). -/
def jeq : JVal → JVal → Bool
  | .jnull, .jnull => true
  | .jstr a, .jstr b => a == b
  | .jint a, .jint b => a == b
  | .jbool a, .jbool b => a == b
  | .jarr a, .jarr b => jeqList a b
  | .jobj a, .jobj b => jeqFields a b
  | _, _ => false

/-- Python `==` on the element lists of two lists. -/
def jeqList : List JVal → List JVal → Bool
  | [], [] => true
  | x :: xs, y :: ys => jeq x y && jeqList xs ys
  | _, _ => false

/-- Python `==` on the field lists of two objects. -/
def jeqFields : List (String × JVal) → List (String × JVal) → Bool
  | [], [] => true
  | (k1, v1) :: r1, (k2, v2) :: r2 => k1 == k2 && jeq v1 v2 && jeqFields r1 r2
  | _, _ => false

end

/-- Python truthiness for `JVal` (`None`, `''`, `0`, `{}` are falsy). -/
def truthyJ : JVal → Bool
  | .jnull => false
  | .jstr s => s ≠ ""
  | .jint n => n ≠ 0
  | .jbool b => b
  | .jarr [] => false
  | .jarr (_ :: _) => true
  | .jobj [] => false
  | .jobj (_ :: _) => true

/-- Python `str(...)` on the primitive values; the router applies it only to
truthy non-dict `error_data` values, so the `jobj` case is unreachable from
`normErrorData`. -/
def pyStr : JVal → String
  | .jnull => "None"
  | .jstr s => s
  | .jint n => toString n
  | .jbool b => if b then "True" else "False"
  | .jarr _ => "[...]"
  | .jobj _ => "\x7b...\x7d"

/-- Field access on an object value (`None` when absent or not an object). -/
def jGet (v : JVal) (k : String) : Option JVal :=
  match v with
  | .jobj f => f.lookup k
  | _ => none

/-- Modelled from the spec: snapshot of one task as returned by the
blog_writer `task_manager.get_task_status` (the task_manager module itself is
not under `src/`).  Fields per §3 of the spec: status, progress, message,
progress_messages, result, error, error_status, error_data. -/
structure TaskSnapshot where
  status : String
  progress : ℚ
  message : String
  progressMessages : List String
  result : Option JVal
  error : Option String
  errorStatus : Option Int
  errorData : Option JVal

/-- `error_data = status.get('error_data', {}) or {}` followed by the
`isinstance(error_data, dict)` guard: falsy values become `{}`, truthy
non-dict values become `{'error': str(error_data)}`. -/
def normErrorData : Option JVal → List (String × JVal)
  | none => []
  | some v =>
    if truthyJ v then
      match v with
      | .jobj f => f
      | other => [("error", .jstr (pyStr other))]
    else []

/-- The subscription-error branch shared by `get_research_status` and
`content_generation_status` (router.py lines 141–182 and 405–446): computes
the outward HTTP status code and the JSON body
`{error, message, provider, usage_info}`. -/
def subscriptionErrorResponse (snap : TaskSnapshot) : Int × List (String × JVal) :=
  let ed := normErrorData snap.errorData
  let errorStatus := snap.errorStatus.getD 429
  let storedErrorMessage : Option JVal :=
    match snap.error with
    | some m => some (.jstr m)
    | none => ed.lookup "error"
  let provider := (ed.lookup "provider").getD (.jstr "unknown")
  let freshUsageInfo : JVal :=
    .jobj ([("provider", provider),
            ("message", storedErrorMessage.getD .jnull),
            ("error_type", (ed.lookup "error_type").getD (.jstr "unknown"))] ++
      (["current_tokens", "requested_tokens", "limit", "current_calls"].filterMap
        (fun k => (ed.lookup k).map (fun v => (k, v)))))
  let usageInfo : JVal :=
    match ed.lookup "usage_info" with
    | some v => if truthyJ v then v else freshUsageInfo
    | none => freshUsageInfo
  let fallbackMessage : JVal :=
    match storedErrorMessage with
    | some v => if truthyJ v then v else .jstr "Subscription limit exceeded"
    | none => .jstr "Subscription limit exceeded"
  let errorMsg := (ed.lookup "message").getD fallbackMessage
  (errorStatus,
   [("error", (ed.lookup "error").getD fallbackMessage),
    ("message", errorMsg),
    ("provider", provider),
    ("usage_info", usageInfo)])

/-- Outcome of a status endpoint call: an `HTTPException`-style error, a raw
`JSONResponse`, or the pass-through of the task snapshot. -/
inductive StatusResult where
  | httpError (statusCode : Int) (detail : String)
  | jsonResponse (statusCode : Int) (body : List (String × JVal))
  | passThrough (snap : TaskSnapshot)

/-- `GET /api/blog/research/status/{task_id}` given the registry lookup
result: 404 when unknown, the rewritten subscription-error response when the
task failed with `error_status` 429/402, otherwise the snapshot itself. -/
def get_research_status (st : Option TaskSnapshot) : StatusResult :=
  match st with
  | none => .httpError 404 "Task not found"
  | some snap =>
    if (snap.status == "failed") &&
        ((snap.errorStatus == some 429) || (snap.errorStatus == some 402)) then
      .jsonResponse (subscriptionErrorResponse snap).1 (subscriptionErrorResponse snap).2
    else .passThrough snap

/-- `GET /api/blog/content/status/{task_id}` given the registry lookup
result.  The completed-task asset-tracking block is a logged side effect
caught by its own `except`, and does not alter the response; the failure
branch is the same rewrite as in `get_research_status`. -/
def content_generation_status (st : Option TaskSnapshot) : StatusResult :=
  match st with
  | none => .httpError 404 "Task not found"
  | some snap =>
    if (snap.status == "failed") &&
        ((snap.errorStatus == some 429) || (snap.errorStatus == some 402)) then
      .jsonResponse (subscriptionErrorResponse snap).1 (subscriptionErrorResponse snap).2
    else .passThrough snap

/-- Modelled from the spec: the Task Registry is an in-memory mapping from
task identifier to task state (§2, §4.2). -/
abbrev TaskRegistry := List (String × TaskSnapshot)

/-- Modelled from the spec: `get(task_id) -> TaskSnapshot | not-found`
(§4.2); the task_manager module is not under `src/`. -/
def get_task_status (reg : TaskRegistry) (task_id : String) : Option TaskSnapshot :=
  reg.lookup task_id

/-- The research status endpoint composed with the registry read. -/
def research_status_endpoint (reg : TaskRegistry) (task_id : String) : StatusResult :=
  get_research_status (get_task_status reg task_id)

/-- The content-generation status endpoint composed with the registry read. -/
def content_status_endpoint (reg : TaskRegistry) (task_id : String) : StatusResult :=
  content_generation_status (get_task_status reg task_id)

/-- The concrete failed task from the claim: `error_status = 429`,
`error_data = {provider: 'gemini', current_tokens: 100, limit: 50}`. -/
def geminiSnap : TaskSnapshot where
  status := "failed"
  progress := 10
  message := "Research failed"
  progressMessages := []
  result := none
  error := some "Gemini token limit exceeded"
  errorStatus := some 429
  errorData := some (.jobj [("provider", .jstr "gemini"),
    ("current_tokens", .jint 100), ("limit", .jint 50)])

/-- The `usage_info` field of the response body produced for `geminiSnap`. -/
def geminiUsageInfo : JVal :=
  (((subscriptionErrorResponse geminiSnap).2.lookup "usage_info").getD .jnull)

/-- The concrete half of claim C1: the gemini task gets HTTP 429 with
`usage_info.provider == 'gemini'`, `usage_info.current_tokens == 100`, and
the fields absent from `error_data` absent from `usage_info`. -/
def C1GeminiFacts : Prop :=
  get_research_status (some geminiSnap) =
      .jsonResponse 429 (subscriptionErrorResponse geminiSnap).2 ∧
  content_generation_status (some geminiSnap) =
      .jsonResponse 429 (subscriptionErrorResponse geminiSnap).2 ∧
  jGet geminiUsageInfo "provider" = some (.jstr "gemini") ∧
  jGet geminiUsageInfo "current_tokens" = some (.jint 100) ∧
  jGet geminiUsageInfo "limit" = some (.jint 50) ∧
  jGet geminiUsageInfo "requested_tokens" = none ∧
  jGet geminiUsageInfo "current_calls" = none

/-- Claim C1: for every stored task with status `'failed'` and
`error_status` 429 or 402, both status endpoints answer with a JSON response
whose HTTP status code equals the stored `error_status` and whose body has
exactly the fields `{error, message, provider, usage_info}`; and, at the
concrete 429/gemini input, `usage_info.provider == 'gemini'`,
`usage_info.current_tokens == 100`, with fields absent from `error_data`
omitted from `usage_info`. -/
theorem C1_quota_error_status_translation (snap : TaskSnapshot) (es : Int)
    (hst : snap.status = "failed") (hes : snap.errorStatus = some es)
    (h42 : es = 429 ∨ es = 402) :
    (get_research_status (some snap) =
        .jsonResponse es (subscriptionErrorResponse snap).2 ∧
     content_generation_status (some snap) =
        .jsonResponse es (subscriptionErrorResponse snap).2 ∧
     (subscriptionErrorResponse snap).2.map Prod.fst =
        ["error", "message", "provider", "usage_info"]) ∧
    C1GeminiFacts := by
  have hcond : ((snap.status == "failed") &&
      ((snap.errorStatus == some 429) || (snap.errorStatus == some 402))) = true := by
    rcases h42 with h | h <;> subst h <;> simp [hst, hes]
  have h1 : (subscriptionErrorResponse snap).1 = es := by
    simp [subscriptionErrorResponse, hes]
  refine ⟨⟨?_, ?_, ?_⟩, ?_⟩
  · simp [get_research_status, hcond, h1]
  · simp [content_generation_status, hcond, h1]
  · rfl
  · exact ⟨rfl, rfl, rfl, rfl, rfl, rfl, rfl⟩

/-- Witness for C1 at the concrete 429/gemini task. -/
theorem C1_quota_error_status_translation_witness :
    (get_research_status (some geminiSnap) =
        .jsonResponse 429 (subscriptionErrorResponse geminiSnap).2 ∧
     content_generation_status (some geminiSnap) =
        .jsonResponse 429 (subscriptionErrorResponse geminiSnap).2 ∧
     (subscriptionErrorResponse geminiSnap).2.map Prod.fst =
        ["error", "message", "provider", "usage_info"]) ∧
    C1GeminiFacts :=
  C1_quota_error_status_translation geminiSnap 429 rfl rfl (Or.inl rfl)

/-- Claim C5: whenever the registry reports not-found for a `task_id`, both
status-polling endpoints answer HTTP 404 "Task not found", whatever other
tasks the registry holds. -/
theorem C5_unknown_task_polls_404 (reg : TaskRegistry) (task_id : String)
    (h : get_task_status reg task_id = none) :
    research_status_endpoint reg task_id = .httpError 404 "Task not found" ∧
    content_status_endpoint reg task_id = .httpError 404 "Task not found" := by
  constructor
  · simp [research_status_endpoint, get_research_status, h]
  · simp [content_status_endpoint, content_generation_status, h]

/-- A pending task used by the C5 witness registry. -/
def pendingSnap : TaskSnapshot where
  status := "pending"
  progress := 0
  message := ""
  progressMessages := []
  result := none
  error := none
  errorStatus := none
  errorData := none

/-- A completed task used by the C5 witness registry. -/
def completedSnap : TaskSnapshot where
  status := "completed"
  progress := 100
  message := "done"
  progressMessages := ["done"]
  result := some (.jstr "ok")
  error := none
  errorStatus := none
  errorData := none

/-- A registry holding two valid tasks, for the C5 witness. -/
def demoRegistry : TaskRegistry :=
  [("task-a", pendingSnap), ("task-b", completedSnap)]

/-- Witness for C5: an unknown id 404s although two valid tasks exist. -/
theorem C5_unknown_task_polls_404_witness :
    get_task_status demoRegistry "missing-task" = none ∧
    research_status_endpoint demoRegistry "missing-task" =
      .httpError 404 "Task not found" ∧
    content_status_endpoint demoRegistry "missing-task" =
      .httpError 404 "Task not found" :=
  ⟨rfl, (C5_unknown_task_polls_404 demoRegistry "missing-task" rfl).1,
    (C5_unknown_task_polls_404 demoRegistry "missing-task" rfl).2⟩

/-! ## Story video generation
(`backend/api/story_writer/routes/video_generation.py`) -/

/-- Progress rescaling of the async-video progress callback:
`overall = 5.0 + max(0.0, min(100.0, sub_progress)) * 0.9` (stage [5, 95]). -/
def asyncVideoOverall (s : ℚ) : ℚ := 5 + max 0 (min 100 s) * (0.9 : ℚ)

/-- Progress rescaling of `image_progress_callback`:
`overall_progress = 30.0 + (sub_progress * 0.2)` (stage [30, 50]). -/
def imageStageOverall (s : ℚ) : ℚ := 30 + s * (0.2 : ℚ)

/-- Progress rescaling of `audio_progress_callback`:
`overall_progress = 50.0 + (sub_progress * 0.2)` (stage [50, 70]). -/
def audioStageOverall (s : ℚ) : ℚ := 50 + s * (0.2 : ℚ)

/-- Progress rescaling of `video_progress_callback` in the complete-video
workflow: `overall_progress = 75.0 + (sub_progress * 0.2)` (stage [75, 95]). -/
def videoComposeOverall (s : ℚ) : ℚ := 75 + s * (0.2 : ℚ)

/-- Modelled from the spec: the state of one story-writer task (the
story_writer `task_manager` module is not under `src/`); fields per §3. -/
structure StoryTask where
  status : String
  progress : ℚ
  message : String
  progressMessages : List String
  result : Option JVal
  error : Option String

/-- Modelled from the spec: `task_manager.update_task_status` (§4.2) —
partial update of the task's fields; a given `message` overwrites the latest
message and is appended to `progress_messages`. -/
def update_task_status (t : StoryTask) (status : String) (progress : Option ℚ)
    (message : Option String) (result : Option JVal) (error : Option String) :
    StoryTask :=
  { status := status,
    progress := progress.getD t.progress,
    message := message.getD t.message,
    progressMessages := t.progressMessages ++ message.toList,
    result := result <|> t.result,
    error := error <|> t.error }

/-- The fields of `StoryVideoGenerationRequest` used by the async video
endpoint and its background task.  Scenes are opaque dicts. -/
structure StoryVideoRequest where
  scenes : List JVal
  imageUrls : List String
  audioUrls : List String
  storyTitle : Option String
  fps : Option ℚ
  transitionDuration : Option ℚ

/-- `url.split("/")[-1].split("?")[0]`: the file name named by a media URL. -/
def filenameFromUrl (u : String) : String :=
  ((pySplitChar '?' ((pySplitChar '/' u).getLastD u)).headD "")

/-- Modelled from the spec: `image_service.output_dir` (the story image
generation service is not under `src/`; the directory is configuration). -/
def imageServiceOutputDir : String := "backend/story_images"

/-- Modelled from the spec: `audio_service.output_dir` (the story audio
generation service is not under `src/`; the directory is configuration). -/
def audioServiceOutputDir : String := "backend/story_audio"

/-- `dir / filename` for a relative file name. -/
def joinDir (dir file : String) : String := dir ++ "/" ++ file

/-- The asset-resolution loop of `_execute_video_generation_task`: walks
`zip(scenes, image_urls, audio_urls)`, keeping only the scenes whose image
and audio files both exist; returns (image_paths, audio_paths,
valid_scenes). -/
def resolveSceneAssets (fileExists : String → Bool) :
    List JVal → List String → List String →
    List String × List String × List JVal
  | scene :: ss, iu :: ius, au :: aus =>
    let rest := resolveSceneAssets fileExists ss ius aus
    let imagePath := joinDir imageServiceOutputDir (filenameFromUrl iu)
    let audioPath := joinDir audioServiceOutputDir (filenameFromUrl au)
    if fileExists imagePath = false then rest
    else if fileExists audioPath = false then rest
    else (imagePath :: rest.1, audioPath :: rest.2.1, scene :: rest.2.2)
  | _, _, _ => ([], [], [])

/-- The outcomes of the external calls made by
`_execute_video_generation_task`: the sub-progress reports the video service
pushes through `progress_callback` while it runs, and its final result
(`Except.error` models a raised exception, carrying `str(exc)`). -/
structure AsyncVideoRun where
  serviceUpdates : List (ℚ × String)
  serviceOutcome : Except String JVal

/-- The `try`-block body of `_execute_video_generation_task`: threads the
task state through every `update_task_status` call and reports the message
of the exception that escapes the body, if any. -/
def executeVideoGenerationTaskBody (fileExists : String → Bool)
    (req : StoryVideoRequest) (run : AsyncVideoRun) (t0 : StoryTask) :
    StoryTask × Option String :=
  let t1 := update_task_status t0 "processing" (some 2)
    (some "Initializing video generation...") none none
  let assets := resolveSceneAssets fileExists req.scenes req.imageUrls req.audioUrls
  if assets.1 = [] ∨ assets.2.1 = [] ∨ assets.1.length ≠ assets.2.1.length then
    (t1, some "No valid or mismatched image/audio assets for video generation.")
  else
    let t2 := run.serviceUpdates.foldl
      (fun t pm => update_task_status t "processing"
        (some (asyncVideoOverall pm.1)) (some pm.2) none none) t1
    match run.serviceOutcome with
    | .error e => (t2, some e)
    | .ok v =>
      (update_task_status t2 "completed" (some 100)
        (some "Video generation complete!")
        (some (.jobj [("video", v), ("success", .jbool true)])) none, none)

/-- `_execute_video_generation_task`: the body inside `try`, with the
`except Exception` handler forcing the task to `failed` (error = `str(exc)`,
message = "Video generation failed: ...") and returning normally. -/
def executeVideoGenerationTask (fileExists : String → Bool)
    (req : StoryVideoRequest) (run : AsyncVideoRun) (t0 : StoryTask) :
    StoryTask :=
  match executeVideoGenerationTaskBody fileExists req run t0 with
  | (t, none) => t
  | (t, some e) =>
    update_task_status t "failed" none
      (some ("Video generation failed: " ++ e)) none (some e)

/-- The outcomes of the external calls made by
`execute_complete_video_generation`: the story/image/audio/video services'
results and the sub-progress reports each service pushes through its
progress callback.  `Except.error` models a raised exception carrying
`str(exc)`; the outline result is a dynamic value so that the
`isinstance(outline_scenes, list)` guard is an honest test. -/
structure CompleteVideoRun where
  premiseOutcome : Except String String
  outlineOutcome : Except String JVal
  imageUpdates : List (ℚ × String)
  imageOutcome : Except String (List JVal)
  audioUpdates : List (ℚ × String)
  audioOutcome : Except String (List JVal)
  videoUpdates : List (ℚ × String)
  videoOutcome : Except String JVal

/-- `scene.get("scene_number", 0)` on an opaque scene dict. -/
def sceneNumberOf (s : JVal) : JVal := (jGet s "scene_number").getD (.jint 0)

/-- The asset-pairing loop of `execute_complete_video_generation`: for each
outline scene, find the image and audio results with the same
`scene_number`; keep the scene when both exist, neither carries a truthy
`error`, and both carry a truthy path. -/
def pairSceneResults (imageResults audioResults : List JVal) :
    List JVal → List String × List String × List JVal
  | [] => ([], [], [])
  | scene :: rest =>
    let tail := pairSceneResults imageResults audioResults rest
    let sceneNumber := sceneNumberOf scene
    let imageResult := imageResults.find?
      (fun m => jeq ((jGet m "scene_number").getD .jnull) sceneNumber)
    let audioResult := audioResults.find?
      (fun m => jeq ((jGet m "scene_number").getD .jnull) sceneNumber)
    match imageResult, audioResult with
    | some img, some aud =>
      if truthyJ ((jGet img "error").getD .jnull) ∨
          truthyJ ((jGet aud "error").getD .jnull) then tail
      else
        match jGet img "image_path", jGet aud "audio_path" with
        | some (.jstr ip), some (.jstr ap) =>
          if ip ≠ "" ∧ ap ≠ "" then (ip :: tail.1, ap :: tail.2.1, scene :: tail.2.2)
          else tail
        | _, _ => tail
    | _, _ => tail

/-- The `try`-block body of `execute_complete_video_generation`: premise,
structured outline, scene images, scene audio, asset pairing, video
composition and the final `completed` update, threading the task state and
reporting the escaped exception's message, if any. -/
def executeCompleteVideoGenerationBody (run : CompleteVideoRun)
    (t0 : StoryTask) : StoryTask × Option String :=
  let t1 := update_task_status t0 "processing" (some 5)
    (some "Starting complete video generation...") none none
  let t2 := update_task_status t1 "processing" (some 10)
    (some "Generating story premise...") none none
  match run.premiseOutcome with
  | .error e => (t2, some e)
  | .ok premise =>
    let t3 := update_task_status t2 "processing" (some 20)
      (some "Generating structured outline with scenes...") none none
    match run.outlineOutcome with
    | .error e => (t3, some e)
    | .ok outline =>
      match outline with
      | .jarr outlineScenes =>
        let t4 := update_task_status t3 "processing" (some 30)
          (some "Generating images for scenes...") none none
        let t5 := run.imageUpdates.foldl
          (fun t pm => update_task_status t "processing"
            (some (imageStageOverall pm.1)) (some pm.2) none none) t4
        match run.imageOutcome with
        | .error e => (t5, some e)
        | .ok imageResults =>
          let t6 := update_task_status t5 "processing" (some 50)
            (some "Generating audio narration for scenes...") none none
          let t7 := run.audioUpdates.foldl
            (fun t pm => update_task_status t "processing"
              (some (audioStageOverall pm.1)) (some pm.2) none none) t6
          match run.audioOutcome with
          | .error e => (t7, some e)
          | .ok audioResults =>
            let t8 := update_task_status t7 "processing" (some 70)
              (some "Preparing video assets...") none none
            let paired := pairSceneResults imageResults audioResults outlineScenes
            if paired.1.length = 0 ∨ paired.2.1.length = 0 then
              (t8, some ("No valid images or audio files were generated. Images: "
                ++ toString paired.1.length ++ ", Audio: "
                ++ toString paired.2.1.length))
            else if paired.1.length ≠ paired.2.1.length then
              (t8, some ("Mismatch between image and audio counts. Images: "
                ++ toString paired.1.length ++ ", Audio: "
                ++ toString paired.2.1.length))
            else
              let t9 := update_task_status t8 "processing" (some 75)
                (some "Composing video from scenes...") none none
              let t10 := run.videoUpdates.foldl
                (fun t pm => update_task_status t "processing"
                  (some (videoComposeOverall pm.1)) (some pm.2) none none) t9
              match run.videoOutcome with
              | .error e => (t10, some e)
              | .ok videoResult =>
                let result : JVal := .jobj [("premise", .jstr premise),
                  ("outline_scenes", .jarr outlineScenes),
                  ("images", .jarr imageResults),
                  ("audio_files", .jarr audioResults),
                  ("video", videoResult),
                  ("success", .jbool true)]
                (update_task_status t10 "completed" (some 100)
                  (some "Complete video generation finished!") (some result) none,
                 none)
      | _ => (t3, some "Failed to generate structured outline")

/-- `execute_complete_video_generation`: the body inside `try`, with the
`except Exception` handler forcing the task to `failed` (error = `str(exc)`,
message = "Complete video generation failed: ...") and returning normally. -/
def executeCompleteVideoGeneration (run : CompleteVideoRun) (t0 : StoryTask) :
    StoryTask :=
  match executeCompleteVideoGenerationBody run t0 with
  | (t, none) => t
  | (t, some e) =>
    update_task_status t "failed" none
      (some ("Complete video generation failed: " ++ e)) none (some e)

/-- `require_authenticated_user` (`backend/api/story_writer/utils/auth.py`):
401 for a falsy user dict, else `str(current_user.get("id", "")).strip()`,
401 again when that is empty. -/
def require_authenticated_user (cu : Option (List (String × JVal))) :
    Except (Int × String) String :=
  match cu with
  | none => .error (401, "Authentication required")
  | some [] => .error (401, "Authentication required")
  | some d =>
    let user_id := pyStrip (match d.lookup "id" with
      | none => ""
      | some v => pyStr v)
    if user_id = "" then .error (401, "Invalid user ID in authentication token")
    else .ok user_id

/-- Modelled from the spec: a freshly created task starts `pending` with no
progress, result or error (§4.2). -/
def freshPendingTask : StoryTask where
  status := "pending"
  progress := 0
  message := ""
  progressMessages := []
  result := none
  error := none

/-- Modelled from the spec: `task_manager.create_task` (§4.2) — allocates a
fresh `pending` task and returns its identifier (collision-free within the
registry by construction). -/
def create_task (reg : List (String × StoryTask)) (taskType : String) :
    String × List (String × StoryTask) :=
  let taskId := "task_" ++ taskType ++ "_" ++ toString reg.length
  (taskId, reg ++ [(taskId, freshPendingTask)])

/-- Outcome of the `POST /generate-video-async` handler. -/
inductive StartResult where
  | httpError (statusCode : Int) (detail : String)
  | started (taskId : String)

/-- `generate_story_video_async`: validates authentication, then the scene
list (non-empty, and counts of scenes / image URLs / audio URLs all equal)
before creating the task and scheduling the background work; on validation
failure it raises HTTP 400 with the registry untouched. -/
def generate_story_video_async (cu : Option (List (String × JVal)))
    (req : StoryVideoRequest) (reg : List (String × StoryTask)) :
    StartResult × List (String × StoryTask) :=
  match require_authenticated_user cu with
  | .error (c, d) => (.httpError c d, reg)
  | .ok _userId =>
    if req.scenes.isEmpty then
      (.httpError 400 "At least one scene is required", reg)
    else if req.scenes.length ≠ req.imageUrls.length ∨
        req.scenes.length ≠ req.audioUrls.length then
      (.httpError 400 "Number of scenes, image URLs, and audio URLs must match",
       reg)
    else
      let allocated := create_task reg "story_video_generation"
      (.started allocated.1, allocated.2)

/-- Claim C6: each progress callback forwards
`stage_start + (s/100) * (stage_end - stage_start)` for its stage's range —
[5, 95] for async video generation (with `s` clamped into [0, 100]),
[30, 50] for image generation and [75, 95] for video composition. -/
theorem C6_progress_callbacks_rescale_linearly (s : ℚ)
    (h0 : 0 ≤ s) (h1 : s ≤ 100) :
    asyncVideoOverall s = 5 + s / 100 * (95 - 5) ∧
    imageStageOverall s = 30 + s / 100 * (50 - 30) ∧
    videoComposeOverall s = 75 + s / 100 * (95 - 75) := by
  have hmax : max 0 (min 100 s) = s := by
    rw [min_eq_right h1]
    exact max_eq_right h0
  refine ⟨?_, ?_, ?_⟩ <;>
    · simp only [asyncVideoOverall, imageStageOverall, videoComposeOverall, hmax]
      norm_num
      ring

/-- Witness for C6 at sub-progress 50. -/
theorem C6_progress_callbacks_rescale_linearly_witness :
    (0 : ℚ) ≤ 50 ∧ (50 : ℚ) ≤ 100 ∧
    (asyncVideoOverall 50 = 5 + 50 / 100 * (95 - 5) ∧
     imageStageOverall 50 = 30 + 50 / 100 * (50 - 30) ∧
     videoComposeOverall 50 = 75 + 50 / 100 * (95 - 75)) :=
  ⟨by norm_num, by norm_num,
   C6_progress_callbacks_rescale_linearly 50 (by norm_num) (by norm_num)⟩

/-- Claim C8: an authenticated async-video request whose scene list is empty
or whose scene / image-URL / audio-URL counts differ is answered with HTTP
400 and the task registry is left unchanged (no task is created). -/
theorem C8_invalid_async_video_request_400_no_task
    (cu : Option (List (String × JVal))) (req : StoryVideoRequest)
    (reg : List (String × StoryTask)) (userId : String)
    (hauth : require_authenticated_user cu = .ok userId)
    (hbad : req.scenes = [] ∨ req.scenes.length ≠ req.imageUrls.length ∨
      req.scenes.length ≠ req.audioUrls.length) :
    (∃ d, (generate_story_video_async cu req reg).1 = .httpError 400 d) ∧
    (generate_story_video_async cu req reg).2 = reg := by
  rcases hbad with h | h | h
  · constructor
    · exact ⟨"At least one scene is required",
        by simp [generate_story_video_async, hauth, h]⟩
    · simp [generate_story_video_async, hauth, h]
  · by_cases he : req.scenes = []
    · exact ⟨⟨"At least one scene is required",
        by simp [generate_story_video_async, hauth, he]⟩,
        by simp [generate_story_video_async, hauth, he]⟩
    · exact ⟨⟨"Number of scenes, image URLs, and audio URLs must match",
        by simp [generate_story_video_async, hauth, he, h]⟩,
        by simp [generate_story_video_async, hauth, he, h]⟩
  · by_cases he : req.scenes = []
    · exact ⟨⟨"At least one scene is required",
        by simp [generate_story_video_async, hauth, he]⟩,
        by simp [generate_story_video_async, hauth, he]⟩
    · exact ⟨⟨"Number of scenes, image URLs, and audio URLs must match",
        by simp [generate_story_video_async, hauth, he, h]⟩,
        by simp [generate_story_video_async, hauth, he, h]⟩

/-- Witness for C8: a mismatched request (one scene, no image URLs) from an
authenticated user is rejected with 400 and the registry stays empty. -/
theorem C8_invalid_async_video_request_400_no_task_witness :
    require_authenticated_user (some [("id", .jstr "user1")]) = .ok "user1" ∧
    ((1 : Nat) ≠ (0 : Nat)) ∧
    (∃ d, (generate_story_video_async (some [("id", .jstr "user1")])
      { scenes := [.jobj []], imageUrls := [], audioUrls := ["a"],
        storyTitle := none, fps := none, transitionDuration := none }
      []).1 = .httpError 400 d) ∧
    (generate_story_video_async (some [("id", .jstr "user1")])
      { scenes := [.jobj []], imageUrls := [], audioUrls := ["a"],
        storyTitle := none, fps := none, transitionDuration := none }
      []).2 = [] :=
  ⟨rfl, by decide,
   (C8_invalid_async_video_request_400_no_task (some [("id", .jstr "user1")])
      { scenes := [.jobj []], imageUrls := [], audioUrls := ["a"],
        storyTitle := none, fps := none, transitionDuration := none }
      [] "user1" rfl (Or.inr (Or.inl (by decide)))).1,
   (C8_invalid_async_video_request_400_no_task (some [("id", .jstr "user1")])
      { scenes := [.jobj []], imageUrls := [], audioUrls := ["a"],
        storyTitle := none, fps := none, transitionDuration := none }
      [] "user1" rfl (Or.inr (Or.inl (by decide)))).2⟩

/-- If the `try`-body of `_execute_video_generation_task` finishes without
an exception, its last update set the task to `completed`. -/
theorem executeVideoGenerationTaskBody_none_completed
    (fileExists : String → Bool) (req : StoryVideoRequest)
    (run : AsyncVideoRun) (t0 : StoryTask)
    (h : (executeVideoGenerationTaskBody fileExists req run t0).2 = none) :
    (executeVideoGenerationTaskBody fileExists req run t0).1.status =
      "completed" := by
  by_cases hc :
      ((resolveSceneAssets fileExists req.scenes req.imageUrls req.audioUrls).1 = [] ∨
       (resolveSceneAssets fileExists req.scenes req.imageUrls req.audioUrls).2.1 = [] ∨
       (resolveSceneAssets fileExists req.scenes req.imageUrls req.audioUrls).1.length ≠
         (resolveSceneAssets fileExists req.scenes req.imageUrls req.audioUrls).2.1.length)
  · simp [executeVideoGenerationTaskBody, hc] at h
  · rcases ho : run.serviceOutcome with e | v
    · simp [executeVideoGenerationTaskBody, hc, ho] at h
    · simp [executeVideoGenerationTaskBody, hc, ho, update_task_status]

/-- If the `try`-body of `execute_complete_video_generation` finishes
without an exception, its last update set the task to `completed`. -/
theorem executeCompleteVideoGenerationBody_none_completed
    (run : CompleteVideoRun) (t0 : StoryTask)
    (h : (executeCompleteVideoGenerationBody run t0).2 = none) :
    (executeCompleteVideoGenerationBody run t0).1.status = "completed" := by
  rcases hp : run.premiseOutcome with e | premise
  · simp [executeCompleteVideoGenerationBody, hp] at h
  · rcases hoo : run.outlineOutcome with e | outline
    · simp [executeCompleteVideoGenerationBody, hp, hoo] at h
    · cases outline with
      | jnull => simp [executeCompleteVideoGenerationBody, hp, hoo] at h
      | jstr s => simp [executeCompleteVideoGenerationBody, hp, hoo] at h
      | jint n => simp [executeCompleteVideoGenerationBody, hp, hoo] at h
      | jbool b => simp [executeCompleteVideoGenerationBody, hp, hoo] at h
      | jobj f => simp [executeCompleteVideoGenerationBody, hp, hoo] at h
      | jarr outlineScenes =>
        rcases hio : run.imageOutcome with e | imageResults
        · simp [executeCompleteVideoGenerationBody, hp, hoo, hio] at h
        · rcases hao : run.audioOutcome with e | audioResults
          · simp [executeCompleteVideoGenerationBody, hp, hoo, hio, hao] at h
          · by_cases h0 :
                ((pairSceneResults imageResults audioResults outlineScenes).1 = [] ∨
                 (pairSceneResults imageResults audioResults outlineScenes).2.1 = [])
            · simp [executeCompleteVideoGenerationBody, hp, hoo, hio, hao, h0] at h
            · push_neg at h0
              by_cases heq :
                  (pairSceneResults imageResults audioResults outlineScenes).1.length =
                    (pairSceneResults imageResults audioResults outlineScenes).2.1.length
              · rcases hvo : run.videoOutcome with e | videoResult
                · simp [executeCompleteVideoGenerationBody, hp, hoo, hio, hao,
                    h0.1, h0.2, heq, hvo] at h
                · simp [executeCompleteVideoGenerationBody, hp, hoo, hio, hao,
                    h0.1, h0.2, heq, hvo, update_task_status]
              · simp [executeCompleteVideoGenerationBody, hp, hoo, hio, hao,
                  h0.1, h0.2, heq] at h

/-- Claim C4: both background video-generation functions always leave the
task in a terminal state (`completed` or `failed`, never `processing`), and
whenever any step of the work raises an exception with message `e` — asset
resolution/validation, a service call, or result handling, all surfaced as
the body's reported error — the handler records status `failed` with the
message captured in `error` and in the user-facing message, and the function
returns a task state normally instead of re-raising (both functions are
total). -/
theorem C4_background_exceptions_force_failed_terminal_state
    (fileExists : String → Bool) (req : StoryVideoRequest)
    (run : AsyncVideoRun) (crun : CompleteVideoRun) (t0 u0 : StoryTask) :
    ((executeVideoGenerationTask fileExists req run t0).status = "completed" ∨
     (executeVideoGenerationTask fileExists req run t0).status = "failed") ∧
    (∀ e, (executeVideoGenerationTaskBody fileExists req run t0).2 = some e →
      (executeVideoGenerationTask fileExists req run t0).status = "failed" ∧
      (executeVideoGenerationTask fileExists req run t0).error = some e ∧
      (executeVideoGenerationTask fileExists req run t0).message =
        "Video generation failed: " ++ e) ∧
    ((executeCompleteVideoGeneration crun u0).status = "completed" ∨
     (executeCompleteVideoGeneration crun u0).status = "failed") ∧
    (∀ e, (executeCompleteVideoGenerationBody crun u0).2 = some e →
      (executeCompleteVideoGeneration crun u0).status = "failed" ∧
      (executeCompleteVideoGeneration crun u0).error = some e ∧
      (executeCompleteVideoGeneration crun u0).message =
        "Complete video generation failed: " ++ e) := by
  refine ⟨?_, ?_, ?_, ?_⟩
  · rcases hb : executeVideoGenerationTaskBody fileExists req run t0 with ⟨t, oe⟩
    rcases oe with _ | e
    · left
      have := executeVideoGenerationTaskBody_none_completed fileExists req run t0
        (by rw [hb])
      rw [hb] at this
      simpa [executeVideoGenerationTask, hb] using this
    · right
      simp [executeVideoGenerationTask, hb, update_task_status]
  · intro e he
    rcases hb : executeVideoGenerationTaskBody fileExists req run t0 with ⟨t, oe⟩
    rw [hb] at he
    rcases oe with _ | e'
    · simp at he
    · obtain rfl : e' = e := by simpa using he
      simp [executeVideoGenerationTask, hb, update_task_status]
  · rcases hb : executeCompleteVideoGenerationBody crun u0 with ⟨t, oe⟩
    rcases oe with _ | e
    · left
      have := executeCompleteVideoGenerationBody_none_completed crun u0
        (by rw [hb])
      rw [hb] at this
      simpa [executeCompleteVideoGeneration, hb] using this
    · right
      simp [executeCompleteVideoGeneration, hb, update_task_status]
  · intro e he
    rcases hb : executeCompleteVideoGenerationBody crun u0 with ⟨t, oe⟩
    rw [hb] at he
    rcases oe with _ | e'
    · simp at he
    · obtain rfl : e' = e := by simpa using he
      simp [executeCompleteVideoGeneration, hb, update_task_status]

/-- Async-video inputs for the C4 witness: no scenes, so asset validation
raises `RuntimeError`. -/
def asyncReqEmpty : StoryVideoRequest where
  scenes := []
  imageUrls := []
  audioUrls := []
  storyTitle := none
  fps := none
  transitionDuration := none

/-- Service outcomes for the C4 witness: the video service itself raises. -/
def asyncRunBoom : AsyncVideoRun where
  serviceUpdates := []
  serviceOutcome := .error "service exploded"

/-- Complete-workflow inputs for the C4 witness: premise generation raises. -/
def completeRunBoom : CompleteVideoRun where
  premiseOutcome := .error "premise failed"
  outlineOutcome := .ok (.jarr [])
  imageUpdates := []
  imageOutcome := .ok []
  audioUpdates := []
  audioOutcome := .ok []
  videoUpdates := []
  videoOutcome := .ok .jnull

/-- Witness for C4: concrete failing runs of both background functions end
`failed` with the exception message captured. -/
theorem C4_background_exceptions_force_failed_terminal_state_witness :
    (executeVideoGenerationTaskBody (fun _ => false) asyncReqEmpty asyncRunBoom
        freshPendingTask).2 =
      some "No valid or mismatched image/audio assets for video generation." ∧
    (executeVideoGenerationTask (fun _ => false) asyncReqEmpty asyncRunBoom
        freshPendingTask).status = "failed" ∧
    (executeVideoGenerationTask (fun _ => false) asyncReqEmpty asyncRunBoom
        freshPendingTask).error =
      some "No valid or mismatched image/audio assets for video generation." ∧
    (executeCompleteVideoGenerationBody completeRunBoom freshPendingTask).2 =
      some "premise failed" ∧
    (executeCompleteVideoGeneration completeRunBoom freshPendingTask).status =
      "failed" ∧
    (executeCompleteVideoGeneration completeRunBoom freshPendingTask).error =
      some "premise failed" :=
  ⟨rfl,
   ((C4_background_exceptions_force_failed_terminal_state (fun _ => false)
      asyncReqEmpty asyncRunBoom completeRunBoom freshPendingTask
      freshPendingTask).2.1 _ rfl).1,
   ((C4_background_exceptions_force_failed_terminal_state (fun _ => false)
      asyncReqEmpty asyncRunBoom completeRunBoom freshPendingTask
      freshPendingTask).2.1 _ rfl).2.1,
   rfl,
   ((C4_background_exceptions_force_failed_terminal_state (fun _ => false)
      asyncReqEmpty asyncRunBoom completeRunBoom freshPendingTask
      freshPendingTask).2.2.2 _ rfl).1,
   ((C4_background_exceptions_force_failed_terminal_state (fun _ => false)
      asyncReqEmpty asyncRunBoom completeRunBoom freshPendingTask
      freshPendingTask).2.2.2 _ rfl).2.1⟩

/-! ## Image Studio (`backend/api/images.py`) -/

/-- The standard base64 alphabet. -/
def base64Alphabet : List Char :=
  "ABCDEFGHIJKLMNOPQRSTUVWXYZabcdefghijklmnopqrstuvwxyz0123456789+/".data

/-- The base64 digit for a 6-bit value. -/
def b64Char (i : Nat) : Char := base64Alphabet.getD i 'A'

/-- `base64.b64encode(...)` over a byte list (values < 256), with padding. -/
def encodeBase64 : List Nat → String
  | [] => ""
  | [b1] =>
    String.mk [b64Char (b1 / 4), b64Char (b1 % 4 * 16), '=', '=']
  | [b1, b2] =>
    String.mk [b64Char (b1 / 4), b64Char (b1 % 4 * 16 + b2 / 16),
      b64Char (b2 % 16 * 4), '=']
  | b1 :: b2 :: b3 :: rest =>
    String.mk [b64Char (b1 / 4), b64Char (b1 % 4 * 16 + b2 / 16),
      b64Char (b2 % 16 * 4 + b3 / 64), b64Char (b3 % 64)] ++ encodeBase64 rest

/-- The payload `generate_image` returns on success (image bytes plus
metadata). -/
structure ImageGenResult where
  imageBytes : List Nat
  width : Int
  height : Int
  provider : String
  model : Option String
  seed : Option Int

/-- The `ImageGenerateResponse` pydantic model. -/
structure ImageGenerateResponse where
  success : Bool
  imageBase64 : String
  imageUrl : Option String
  width : Int
  height : Int
  provider : String
  model : Option String
  seed : Option Int

/-- The outcomes of the external calls made by one attempt of the `generate`
endpoint's retry loop: the `generate_image` call, the `save_file_safely`
call (which returns `(image_path, save_error)` or raises), the
`save_asset_to_library` call and the usage-tracking block (both side
effects whose exceptions are caught and logged). -/
structure GenerateAttempt where
  genOutcome : Except String ImageGenResult
  saveOutcome : Except String (Option String × Option String)
  assetOutcome : Except String (Option Int)
  usageOutcome : Except String Unit

/-- `path.name`: the final component of a path string. -/
def pathName (p : String) : String := (pySplitChar '/' p).getLastD p

/-- The served URL of a saved Image Studio file:
`f"/api/images/image-studio/images/{image_path.name}"`. -/
def imageStudioUrlOf (p : String) : String :=
  "/api/images/image-studio/images/" ++ pathName p

/-- One iteration of the `generate` retry loop: `none` models the attempt's
`except` branch (generation raised), `some resp` the `return response` path.
A failing save leaves `image_url = None`; the asset-library and
usage-tracking outcomes are caught by their own handlers and never reach the
response. -/
def runGenerateAttempt (a : GenerateAttempt) : Option ImageGenerateResponse :=
  match a.genOutcome with
  | .error _ => none
  | .ok r =>
    let imageB64 := encodeBase64 r.imageBytes
    let imageUrl : Option String :=
      match a.saveOutcome with
      | .error _ => none
      | .ok (some p, none) => some (imageStudioUrlOf p)
      | .ok _ => none
    some { success := true, imageBase64 := imageB64, imageUrl := imageUrl,
           width := r.width, height := r.height, provider := r.provider,
           model := r.model, seed := r.seed }

/-- Outcome of `POST /api/images/generate`. -/
inductive GenerateResult where
  | response (resp : ImageGenerateResponse)
  | httpError (statusCode : Int) (detail : String)

/-- The `generate` endpoint's retry loop (two attempts): a second attempt
runs only when the first generation raised and the request pinned a provider
(which is then cleared); any remaining failure surfaces as HTTP 500. -/
def imagesGenerate (providerSet : Bool) (a1 a2 : GenerateAttempt) :
    GenerateResult :=
  match runGenerateAttempt a1 with
  | some resp => .response resp
  | none =>
    if providerSet then
      match runGenerateAttempt a2 with
      | some resp => .response resp
      | none => .httpError 500 "Image generation service is temporarily unavailable or the connection was reset. Please try again."
    else .httpError 500 "Image generation service is temporarily unavailable or the connection was reset. Please try again."

/-- Claim C9: once `generate_image` succeeds, the endpoint answers with a
successful `ImageGenerateResponse` carrying the base64-encoded image no
matter how the disk save, asset-library write or usage tracking end; a
raised save leaves only `image_url` empty, and an asset-library failure
after a successful save does not even cost the URL. -/
theorem C9_generate_side_effect_failures_nonblocking (providerSet : Bool)
    (a1 a2 : GenerateAttempt) (r : ImageGenResult)
    (hgen : a1.genOutcome = .ok r) :
    (∃ u, imagesGenerate providerSet a1 a2 = .response
      { success := true, imageBase64 := encodeBase64 r.imageBytes,
        imageUrl := u, width := r.width, height := r.height,
        provider := r.provider, model := r.model, seed := r.seed }) ∧
    (∀ e, a1.saveOutcome = .error e →
      imagesGenerate providerSet a1 a2 = .response
        { success := true, imageBase64 := encodeBase64 r.imageBytes,
          imageUrl := none, width := r.width, height := r.height,
          provider := r.provider, model := r.model, seed := r.seed }) ∧
    (∀ p e, a1.saveOutcome = .ok (some p, none) → a1.assetOutcome = .error e →
      imagesGenerate providerSet a1 a2 = .response
        { success := true, imageBase64 := encodeBase64 r.imageBytes,
          imageUrl := some (imageStudioUrlOf p), width := r.width,
          height := r.height, provider := r.provider, model := r.model,
          seed := r.seed }) := by
  refine ⟨?_, ?_, ?_⟩
  · rcases hs : a1.saveOutcome with e | ⟨op, oe⟩
    · exact ⟨none, by simp [imagesGenerate, runGenerateAttempt, hgen, hs]⟩
    · rcases op with _ | p <;> rcases oe with _ | e'
      · exact ⟨none, by simp [imagesGenerate, runGenerateAttempt, hgen, hs]⟩
      · exact ⟨none, by simp [imagesGenerate, runGenerateAttempt, hgen, hs]⟩
      · exact ⟨some (imageStudioUrlOf p),
          by simp [imagesGenerate, runGenerateAttempt, hgen, hs]⟩
      · exact ⟨none, by simp [imagesGenerate, runGenerateAttempt, hgen, hs]⟩
  · intro e hs
    simp [imagesGenerate, runGenerateAttempt, hgen, hs]
  · intro p e hs _hasset
    simp [imagesGenerate, runGenerateAttempt, hgen, hs]

/-- The successful small generation result used by the C9 witness. -/
def smallGenResult : ImageGenResult where
  imageBytes := [1, 2, 3]
  width := 4
  height := 4
  provider := "gemini"
  model := none
  seed := none

/-- A C9 witness attempt whose generation succeeds but whose disk save and
asset-library write both raise. -/
def attemptSaveBoom : GenerateAttempt where
  genOutcome := .ok smallGenResult
  saveOutcome := .error "disk full"
  assetOutcome := .error "db down"
  usageOutcome := .ok ()

/-- A second attempt that is never reached in the C9 witness. -/
def attemptUnused : GenerateAttempt where
  genOutcome := .error "unused"
  saveOutcome := .error "unused"
  assetOutcome := .error "unused"
  usageOutcome := .ok ()

/-- Witness for C9: bytes `[1, 2, 3]` generate fine, the disk save raises
`"disk full"`, and the endpoint still returns success with base64 `"AQID"`. -/
theorem C9_generate_side_effect_failures_nonblocking_witness :
    encodeBase64 [1, 2, 3] = "AQID" ∧
    attemptSaveBoom.genOutcome = .ok smallGenResult ∧
    imagesGenerate false attemptSaveBoom attemptUnused =
      .response
        { success := true, imageBase64 := encodeBase64 [1, 2, 3],
          imageUrl := none, width := 4, height := 4, provider := "gemini",
          model := none, seed := none } :=
  ⟨by decide, rfl,
   (C9_generate_side_effect_failures_nonblocking false attemptSaveBoom
      attemptUnused smallGenResult rfl).2.1 "disk full" rfl⟩

/-- Lexical `Path.resolve()` of relative segments against an absolute base
path (a list of path components): `..` pops a component, `.` and empty
segments vanish, anything else is appended.  Symlinks are outside the
model. -/
def resolveSegments (base : List String) : List String → List String
  | [] => base
  | seg :: rest =>
    if seg = ".." then resolveSegments base.dropLast rest
    else if seg = "." ∨ seg = "" then resolveSegments base rest
    else resolveSegments (base ++ [seg]) rest

/-- `(base / rel).resolve()`: pathlib restarts from the root when `rel` is
absolute, otherwise resolves `rel`'s segments against `base`. -/
def resolveUnder (base : List String) (rel : String) : List String :=
  if pyStartsWith "/" rel then resolveSegments [] (pySplitChar '/' rel)
  else resolveSegments base (pySplitChar '/' rel)

/-- `image_studio_dir = (Path(__file__).parent.parent / "image_studio_images").resolve()`:
the backend's image-studio images directory. -/
def imageStudioImagesDir : List String := ["backend", "image_studio_images"]

/-- The containment base chosen by `serve_image_studio_image`: the
`edited` subdirectory for `edited/`-prefixed names, the images directory
otherwise. -/
def baseSubdirOf (image_filename : String) : List String :=
  if pyStartsWith "edited/" image_filename then
    imageStudioImagesDir ++ ["edited"]
  else imageStudioImagesDir

/-- The `image_path` the endpoint computes: for `edited/`-prefixed names the
prefix is removed (`replace("edited/", "", 1)` removes the leading seven
characters) and the rest resolves under the `edited` subdirectory;
otherwise the name resolves under the images directory. -/
def resolvedRequestPath (image_filename : String) : List String :=
  if pyStartsWith "edited/" image_filename then
    resolveUnder (imageStudioImagesDir ++ ["edited"]) (pyDrop 7 image_filename)
  else resolveUnder imageStudioImagesDir image_filename

/-- `image_path.relative_to(base)` succeeds exactly when `base` is a prefix
of the resolved path. -/
def isWithin (base p : List String) : Bool := base.isPrefixOf p

/-- Outcome of the image-serving endpoint. -/
inductive ServeResult where
  | fileResponse (path : List String) (mediaType : String) (filename : String)
  | httpError (statusCode : Int) (detail : String)

/-- `GET /api/images/image-studio/images/{image_filename:path}`: 401 for a
falsy user, 403 when the resolved path escapes the per-request base
directory, 404 when the file is missing, else the file. -/
def serve_image_studio_image (fileExists : List String → Bool)
    (cu : Option (List (String × JVal))) (image_filename : String) :
    ServeResult :=
  match cu with
  | none => .httpError 401 "Authentication required"
  | some [] => .httpError 401 "Authentication required"
  | some (_ :: _) =>
    if isWithin (baseSubdirOf image_filename) (resolvedRequestPath image_filename)
        = false then
      .httpError 403 "Access denied: Invalid image path"
    else if fileExists (resolvedRequestPath image_filename) = false then
      .httpError 404 "Image not found"
    else
      .fileResponse (resolvedRequestPath image_filename) "image/png"
        ((resolvedRequestPath image_filename).getLastD "")

/-- Claim C10 as stated is false in its `otherwise HTTP 404` part: the
filename `"edited/../img.png"` resolves to `img.png` INSIDE the image-studio
images directory, the file does not exist in the (empty) filesystem, yet the
endpoint answers 403 — not 404 and not a `FileResponse` — because the
resolved path escapes the `edited/` base directory of the request. -/
theorem C10_inside_dir_escaping_base_counterexample :
    isWithin imageStudioImagesDir (resolvedRequestPath "edited/../img.png")
      = true ∧
    (fun _ : List String => false) (resolvedRequestPath "edited/../img.png")
      = false ∧
    serve_image_studio_image (fun _ => false) (some [("id", .jstr "u")])
      "edited/../img.png" = .httpError 403 "Access denied: Invalid image path" :=
  ⟨by decide, rfl, rfl⟩

/-- Claim C10 (amended): requests resolving outside the image-studio images
directory are always answered 403 with no file served; a `FileResponse` is
returned only for resolved paths inside that directory which exist; and a
path inside the request's base directory (the `edited/` subdirectory for
`edited/`-prefixed names, the images directory otherwise) that does not
exist is answered 404 — a path may resolve inside the images directory yet
escape the `edited/` base, and is then refused with 403, not 404. -/
theorem C10_path_containment_controls_serving (fileExists : List String → Bool)
    (p0 : String × JVal) (rest : List (String × JVal)) (fn : String) :
    (isWithin imageStudioImagesDir (resolvedRequestPath fn) = false →
      serve_image_studio_image fileExists (some (p0 :: rest)) fn =
        .httpError 403 "Access denied: Invalid image path") ∧
    (∀ q mt f, serve_image_studio_image fileExists (some (p0 :: rest)) fn =
        .fileResponse q mt f →
      q = resolvedRequestPath fn ∧ isWithin imageStudioImagesDir q = true ∧
      fileExists q = true) ∧
    (isWithin (baseSubdirOf fn) (resolvedRequestPath fn) = true →
      fileExists (resolvedRequestPath fn) = false →
      serve_image_studio_image fileExists (some (p0 :: rest)) fn =
        .httpError 404 "Image not found") := by
  have hbase : imageStudioImagesDir <+: baseSubdirOf fn := by
    unfold baseSubdirOf
    split
    · exact List.prefix_append _ _
    · exact List.prefix_refl _
  have hmono : ∀ p, isWithin (baseSubdirOf fn) p = true →
      isWithin imageStudioImagesDir p = true := by
    intro p hb
    exact List.isPrefixOf_iff_prefix.mpr
      (hbase.trans (List.isPrefixOf_iff_prefix.mp hb))
  refine ⟨?_, ?_, ?_⟩
  · intro h
    have hb : isWithin (baseSubdirOf fn) (resolvedRequestPath fn) = false := by
      rcases Bool.eq_false_or_eq_true
          (isWithin (baseSubdirOf fn) (resolvedRequestPath fn)) with h' | h'
      · rw [hmono _ h'] at h
        cases h
      · exact h'
    simp [serve_image_studio_image, hb]
  · intro q mt f h
    by_cases h1 : isWithin (baseSubdirOf fn) (resolvedRequestPath fn) = false
    · simp [serve_image_studio_image, h1] at h
    · by_cases h2 : fileExists (resolvedRequestPath fn) = false
      · simp [serve_image_studio_image, h1, h2] at h
      · simp [serve_image_studio_image, h1, h2] at h
        obtain ⟨hq, _, _⟩ := h
        refine ⟨hq.symm, ?_, ?_⟩
        · rw [hq.symm]
          rcases Bool.eq_false_or_eq_true
              (isWithin (baseSubdirOf fn) (resolvedRequestPath fn)) with h' | h'
          · exact hmono _ h'
          · exact absurd h' h1
        · rw [hq.symm]
          rcases Bool.eq_false_or_eq_true
            (fileExists (resolvedRequestPath fn)) with h' | h'
          · exact h'
          · exact absurd h' h2
  · intro hb hex
    simp [serve_image_studio_image, hb, hex]

/-- Witness for amended C10: `"../secret.png"` resolves outside the images
directory and is refused 403; `"ok.png"` resolves inside but does not exist
in the empty filesystem and gets 404. -/
theorem C10_path_containment_controls_serving_witness :
    isWithin imageStudioImagesDir (resolvedRequestPath "../secret.png")
      = false ∧
    serve_image_studio_image (fun _ => true) (some [("id", .jstr "u")])
      "../secret.png" = .httpError 403 "Access denied: Invalid image path" ∧
    isWithin (baseSubdirOf "ok.png") (resolvedRequestPath "ok.png") = true ∧
    serve_image_studio_image (fun _ => false) (some [("id", .jstr "u")])
      "ok.png" = .httpError 404 "Image not found" :=
  ⟨by decide,
   (C10_path_containment_controls_serving (fun _ => true) ("id", .jstr "u")
      [] "../secret.png").1 (by decide),
   by decide,
   (C10_path_containment_controls_serving (fun _ => false) ("id", .jstr "u")
      [] "ok.png").2.2 (by decide) rfl⟩

end ALwrity
